import Mathlib

/-
Verification of the LabelMed single-box labelling tool (src/main.py) against
its natural-language specification.

The geometry/data core of the program is embedded shallowly:
- Qt value types (QPoint, QPixmap, QRect) become plain structures; QPoint
  coordinates are C ints, modelled as Int; a non-null QPixmap is modelled by
  its pixel size.
- The mutable widget state of ImageLabel (fields `_pixmap`, `image_path`,
  `center_point`) becomes an explicit state record, and the event handlers and
  slots become state-passing functions.
- Image decoding (the QPixmap constructor) and file dialogs are external
  collaborators: the decode result and the bytes read from disk are passed in
  as arguments.
- Python floats appearing in `rectangle_points` hold small integer pixel
  coordinates, for which float conversion is exact, so they stay Int.
-/

namespace LabelMed

/-- Qt QPoint: an integer pixel coordinate. -/
structure QPoint where
  x : Int
  y : Int
deriving DecidableEq, Repr

/-- A decoded, non-null QPixmap, modelled by its pixel dimensions. -/
structure QPixmap where
  width : Int
  height : Int
deriving DecidableEq, Repr

/-- A Qt QRect as built in `ImageLabel._current_qrect` from a top-left and a
bottom-right QPoint. For a QRect constructed this way, Qt's `left`, `top`,
`right`, `bottom` accessors return exactly the coordinates of the two corner
points, so we keep the corners themselves. -/
structure QRect where
  topLeft : QPoint
  bottomRight : QPoint
deriving DecidableEq, Repr

/-- `ImageLabel.RECT_SIZE = 600`, the side length of the square box. -/
def RECT_SIZE : Int := 600

/-- `ImageLabel._current_qrect`: the clipped box around the center point.
Python `//` is floor division; `RECT_SIZE / 2 = 300` is exact, so Int division
agrees. -/
def currentQRect (center : QPoint) (imgW imgH : Int) : QRect :=
  let half := RECT_SIZE / 2
  let x1 := max 0 (center.x - half)
  let y1 := max 0 (center.y - half)
  let x2 := min imgW (center.x + half)
  let y2 := min imgH (center.y + half)
  { topLeft := { x := x1, y := y1 }, bottomRight := { x := x2, y := y2 } }

/-- The mutable session state of the `ImageLabel` widget. -/
structure ImageLabelState where
  pixmap : Option QPixmap
  imagePath : Option String
  centerPoint : Option QPoint
deriving DecidableEq, Repr

/-- The widget's initial state set in `ImageLabel.__init__`. -/
def initState : ImageLabelState :=
  { pixmap := none, imagePath := none, centerPoint := none }

/-- `ImageLabel.load_image`. The QPixmap constructor (image decoding) is
external; its result is passed in as `pm`, with `none` standing for a null
pixmap (bytes not decodable as a raster image). The Python method raises
`ValueError` before any assignment when the pixmap is null, so on failure the
state is returned untouched; on success all three fields are assigned, the
center point being reset to `None`. -/
def load_image (s : ImageLabelState) (path : String) (pm : Option QPixmap) :
    Except String ImageLabelState :=
  match pm with
  | none => Except.error ("Cannot load image: " ++ path)
  | some p =>
      Except.ok { s with pixmap := some p, imagePath := some path,
                         centerPoint := none }

/-- `ImageLabel.pixmap_size`: `(0, 0)` when no pixmap is loaded, else the
pixmap's dimensions. -/
def pixmap_size (s : ImageLabelState) : Int × Int :=
  match s.pixmap with
  | none => (0, 0)
  | some p => (p.width, p.height)

/-- `ImageLabel.rectangle_points`: `None` unless both a center point and a
pixmap are present, otherwise the corner list
`[[rect.left, rect.top], [rect.right, rect.bottom]]` of the current box. -/
def rectangle_points (s : ImageLabelState) : Option (List (List Int)) :=
  match s.centerPoint, s.pixmap with
  | some c, some p =>
      let rect := currentQRect c p.width p.height
      some [[rect.topLeft.x, rect.topLeft.y],
            [rect.bottomRight.x, rect.bottomRight.y]]
  | _, _ => none

/-- The mouse button of a press event; only the left button is acted on. -/
inductive MouseButton where
  | left
  | right
deriving DecidableEq, Repr

/-- `ImageLabel.mousePressEvent`: stores the click position as the new center
point only for a left-button press while a pixmap is loaded; any other press
leaves the state unchanged. -/
def mousePressEvent (s : ImageLabelState) (button : MouseButton) (pos : QPoint) :
    ImageLabelState :=
  if button = MouseButton.left ∧ s.pixmap.isSome then
    { s with centerPoint := some pos }
  else s

end LabelMed

namespace LabelMed

/-- The base64 alphabet of RFC 4648, as used by Python `base64.b64encode`. -/
def base64Alphabet : List Char :=
  "ABCDEFGHIJKLMNOPQRSTUVWXYZabcdefghijklmnopqrstuvwxyz0123456789+/".toList

/-- Character for a 6-bit value. -/
def b64char (n : Nat) : Char := base64Alphabet.getD n 'A'

/-- Standard base64 of a byte list, modelling `base64.b64encode`: each group of
three bytes becomes four alphabet characters; a final group of one or two
bytes is padded with the `=` character. -/
def b64encode : List Nat → String
  | [] => ""
  | [a] =>
      String.mk [b64char (a / 4), b64char (a % 4 * 16), '=', '=']
  | [a, b] =>
      String.mk [b64char (a / 4), b64char (a % 4 * 16 + b / 16),
        b64char (b % 16 * 4), '=']
  | a :: b :: c :: rest =>
      String.mk [b64char (a / 4), b64char (a % 4 * 16 + b / 16),
        b64char (b % 16 * 4 + c / 64), b64char (c % 64)] ++ b64encode rest

/-- `pathlib.Path(p).name`: the final path component, i.e. the part after the
last `/` separator (the tool's paths are POSIX style), computed on the
character list. -/
def pathName (p : String) : String :=
  String.mk ((p.toList.splitOn '/').getLastD p.toList)

/-- One labelled shape of the exported JSON (the inner dict literal in
`MainWindow.save_json`). JSON maps written as empty dicts are modelled as
association lists and JSON `null` as `none`. -/
structure Shape where
  label : String
  points : List (List Int)
  group_id : Option Int
  description : String
  shape_type : String
  flags : List (String × String)
  mask : Option String
deriving DecidableEq, Repr

/-- The exported JSON document built by `MainWindow.save_json`. -/
structure LabelFile where
  version : String
  flags : List (String × String)
  shapes : List Shape
  imagePath : String
  imageData : String
  imageHeight : Int
  imageWidth : Int
deriving DecidableEq, Repr

/-- Failure modes of `save_json`, surfaced as warning boxes before anything is
built or written. -/
inductive SaveError where
  | noImage
  | noCenter
deriving DecidableEq, Repr

/-- `MainWindow.save_json`, up to the dict that gets json-dumped. The save
dialog and the disk write are external; `fileBytes` are the bytes read back
from the loaded image file. The two prerequisite checks run in source order:
no pixmap, then no rectangle points; each aborts before any record is built.
When the path is present (always the case once a pixmap is loaded) the
imagePath written is `Path(image_path).name`. -/
def save_json (s : ImageLabelState) (fileBytes : List Nat) :
    Except SaveError LabelFile :=
  match s.pixmap with
  | none => Except.error SaveError.noImage
  | some _ =>
      match rectangle_points s with
      | none => Except.error SaveError.noCenter
      | some pts =>
          let sz := pixmap_size s
          Except.ok {
            version := "5.8.3"
            flags := []
            shapes := [{
              label := "d"
              points := pts
              group_id := none
              description := ""
              shape_type := "rectangle"
              flags := []
              mask := none }]
            imagePath := pathName (s.imagePath.getD "")
            imageData := b64encode fileBytes
            imageHeight := sz.2
            imageWidth := sz.1 }

/-- One user-level session operation. `load` carries the external decode result
for the chosen file; `click` a button press at a position; `save` the bytes
read from the image file. `save_json` itself mutates no session state (the
open-image dialog it triggers after a successful write is a separate `load`
operation). -/
inductive Op where
  | load (path : String) (pm : Option QPixmap)
  | click (button : MouseButton) (pos : QPoint)
  | save (fileBytes : List Nat)
deriving Repr

/-- Effect of one operation on the session state. A failed load leaves the
state unchanged: `load_image` raises before assigning, and `open_image`
catches the `ValueError` and returns. -/
def applyOp (s : ImageLabelState) : Op → ImageLabelState
  | Op.load path pm =>
      match load_image s path pm with
      | Except.ok s2 => s2
      | Except.error _ => s
  | Op.click b pos => mousePressEvent s b pos
  | Op.save _ => s

/-- Run a sequence of operations from the widget's initial state. -/
def runOps (ops : List Op) : ImageLabelState :=
  ops.foldl applyOp initState

/-- A load operation only ever delivers decoded pixmaps with positive pixel
dimensions: a QPixmap that is not null has width and height at least 1. -/
def goodOp : Op → Bool
  | Op.load _ (some p) => decide (0 < p.width) && decide (0 < p.height)
  | _ => true

/-- Session invariant: every loaded pixmap has positive dimensions, and a
selected center point implies a loaded pixmap. -/
def stateInv (s : ImageLabelState) : Prop :=
  (∀ p : QPixmap, s.pixmap = some p → 0 < p.width ∧ 0 < p.height) ∧
  (s.centerPoint.isSome → s.pixmap.isSome)

/-- Concrete session state used by witnesses: an 800 times 600 image, a path
with directories, center selected at (400, 300). -/
def wState : ImageLabelState :=
  { pixmap := some { width := 800, height := 600 }
    imagePath := some "/a/b/img.png"
    centerPoint := some { x := 400, y := 300 } }

/-- Concrete file bytes used by witnesses: the two bytes of "Ma", whose base64
is "TWE=". -/
def wBytes : List Nat := [77, 97]

/-- The record `save_json` builds from `wState` and `wBytes`. -/
def wRec : LabelFile :=
  { version := "5.8.3"
    flags := []
    shapes := [{
      label := "d"
      points := [[100, 0], [700, 600]]
      group_id := none
      description := ""
      shape_type := "rectangle"
      flags := []
      mask := none }]
    imagePath := "img.png"
    imageData := "TWE="
    imageHeight := 600
    imageWidth := 800 }

/-- Concrete operation list used by the reachability witness. -/
def wOps : List Op :=
  [Op.load "img.png" (some { width := 800, height := 600 }),
   Op.click MouseButton.left { x := 400, y := 300 }]

end LabelMed

namespace LabelMed

lemma stateInv_applyOp {s : ImageLabelState} {op : Op}
    (hs : stateInv s) (hop : goodOp op = true) : stateInv (applyOp s op) := by
  cases op with
  | load path pm =>
      cases pm with
      | none => simpa [applyOp, load_image] using hs
      | some p =>
          simp only [goodOp, Bool.and_eq_true, decide_eq_true_eq] at hop
          refine ⟨?_, ?_⟩
          · intro q hq
            simp only [applyOp, load_image] at hq
            obtain rfl : p = q := by exact Option.some.inj hq
            exact hop
          · intro hc
            simp [applyOp, load_image]
  | click b pos =>
      by_cases h : b = MouseButton.left ∧ s.pixmap.isSome
      · refine ⟨?_, ?_⟩
        · intro q hq
          simp only [applyOp, mousePressEvent, if_pos h] at hq
          exact hs.1 q hq
        · intro _
          simpa [applyOp, mousePressEvent, if_pos h] using h.2
      · simpa [applyOp, mousePressEvent, if_neg h] using hs
  | save fileBytes => simpa [applyOp] using hs

lemma stateInv_foldl (ops : List Op) (s : ImageLabelState)
    (hs : stateInv s) (hops : ops.all goodOp = true) :
    stateInv (ops.foldl applyOp s) := by
  induction ops generalizing s with
  | nil => simpa using hs
  | cons op rest ih =>
      simp only [List.all_cons, Bool.and_eq_true] at hops
      simpa using ih (applyOp s op) (stateInv_applyOp hs hops.1) hops.2

lemma stateInv_init : stateInv initState := by
  constructor
  · intro p hp; simp [initState] at hp
  · intro h; simp [initState] at h

/-- C1: for every loaded image of dimensions (width, height) and every
selected center point (cx, cy), `rectangle_points` computes exactly
`[[max 0 (cx - 300), max 0 (cy - 300)],
[min width (cx + 300), min height (cy + 300)]]`, with the half-extent
`RECT_SIZE / 2` fixed at 300 and the nominal side `RECT_SIZE` at 600. -/
theorem box_formula (s : ImageLabelState) (p : QPixmap) (c : QPoint)
    (hp : s.pixmap = some p) (hc : s.centerPoint = some c) :
    rectangle_points s =
      some [[max 0 (c.x - 300), max 0 (c.y - 300)],
            [min p.width (c.x + 300), min p.height (c.y + 300)]] ∧
    RECT_SIZE / 2 = 300 ∧ RECT_SIZE = 600 := by
  refine ⟨?_, rfl, rfl⟩
  simp [rectangle_points, hp, hc, currentQRect, RECT_SIZE]

/-- Witness for C1 at the concrete state `wState`. -/
theorem box_formula_witness :
    wState.pixmap = some { width := 800, height := 600 } ∧
    wState.centerPoint = some { x := 400, y := 300 } ∧
    (rectangle_points wState =
      some [[max 0 ((400 : Int) - 300), max 0 ((300 : Int) - 300)],
            [min (800 : Int) (400 + 300), min (600 : Int) (300 + 300)]] ∧
     RECT_SIZE / 2 = 300 ∧ RECT_SIZE = 600) :=
  ⟨rfl, rfl,
    box_formula wState { width := 800, height := 600 } { x := 400, y := 300 }
      rfl rfl⟩

/-- C2: for every image of size W times H and every center (cx, cy) with
0 <= cx <= W and 0 <= cy <= H, the computed box corners satisfy
0 <= x1 <= x2 <= W and 0 <= y1 <= y2 <= H: the box lies within image bounds
and is well-ordered. -/
theorem box_within_bounds (cx cy W H : Int)
    (hx0 : 0 ≤ cx) (hxW : cx ≤ W) (hy0 : 0 ≤ cy) (hyH : cy ≤ H) :
    0 ≤ (currentQRect { x := cx, y := cy } W H).topLeft.x ∧
    (currentQRect { x := cx, y := cy } W H).topLeft.x ≤
      (currentQRect { x := cx, y := cy } W H).bottomRight.x ∧
    (currentQRect { x := cx, y := cy } W H).bottomRight.x ≤ W ∧
    0 ≤ (currentQRect { x := cx, y := cy } W H).topLeft.y ∧
    (currentQRect { x := cx, y := cy } W H).topLeft.y ≤
      (currentQRect { x := cx, y := cy } W H).bottomRight.y ∧
    (currentQRect { x := cx, y := cy } W H).bottomRight.y ≤ H := by
  simp only [currentQRect, RECT_SIZE]
  omega

/-- Witness for C2 at image size 800 times 600 and center (10, 10). -/
theorem box_within_bounds_witness :
    (0 : Int) ≤ 10 ∧ (10 : Int) ≤ 800 ∧ (0 : Int) ≤ 10 ∧ (10 : Int) ≤ 600 ∧
    (0 ≤ (currentQRect { x := 10, y := 10 } 800 600).topLeft.x ∧
     (currentQRect { x := 10, y := 10 } 800 600).topLeft.x ≤
       (currentQRect { x := 10, y := 10 } 800 600).bottomRight.x ∧
     (currentQRect { x := 10, y := 10 } 800 600).bottomRight.x ≤ 800 ∧
     0 ≤ (currentQRect { x := 10, y := 10 } 800 600).topLeft.y ∧
     (currentQRect { x := 10, y := 10 } 800 600).topLeft.y ≤
       (currentQRect { x := 10, y := 10 } 800 600).bottomRight.y ∧
     (currentQRect { x := 10, y := 10 } 800 600).bottomRight.y ≤ 600) :=
  ⟨by decide, by decide, by decide, by decide,
    box_within_bounds 10 10 800 600 (by decide) (by decide) (by decide)
      (by decide)⟩

/-- C4: on an 800 times 600 image, a click at (400, 300) yields box points
[[100, 0], [700, 600]] and a click at (10, 10) yields [[0, 0], [310, 310]]:
one-sided asymmetric clipping, not re-centering. -/
theorem scenario_boxes :
    rectangle_points
      { pixmap := some { width := 800, height := 600 },
        imagePath := some "img.png",
        centerPoint := some { x := 400, y := 300 } } =
      some [[100, 0], [700, 600]] ∧
    rectangle_points
      { pixmap := some { width := 800, height := 600 },
        imagePath := some "img.png",
        centerPoint := some { x := 10, y := 10 } } =
      some [[0, 0], [310, 310]] := by
  exact ⟨rfl, rfl⟩

/-- C5: for every image of size W times H and every center (cx, cy) at least
300 pixels from every edge, the computed box is exactly 600 wide and 600
high. -/
theorem box_full_size (cx cy W H : Int)
    (hx0 : 300 ≤ cx) (hxW : cx ≤ W - 300) (hy0 : 300 ≤ cy)
    (hyH : cy ≤ H - 300) :
    (currentQRect { x := cx, y := cy } W H).bottomRight.x -
      (currentQRect { x := cx, y := cy } W H).topLeft.x = 600 ∧
    (currentQRect { x := cx, y := cy } W H).bottomRight.y -
      (currentQRect { x := cx, y := cy } W H).topLeft.y = 600 := by
  simp only [currentQRect, RECT_SIZE]
  omega

/-- Witness for C5 at image size 1000 times 800 and center (500, 400). -/
theorem box_full_size_witness :
    (300 : Int) ≤ 500 ∧ (500 : Int) ≤ 1000 - 300 ∧ (300 : Int) ≤ 400 ∧
    (400 : Int) ≤ 800 - 300 ∧
    ((currentQRect { x := 500, y := 400 } 1000 800).bottomRight.x -
       (currentQRect { x := 500, y := 400 } 1000 800).topLeft.x = 600 ∧
     (currentQRect { x := 500, y := 400 } 1000 800).bottomRight.y -
       (currentQRect { x := 500, y := 400 } 1000 800).topLeft.y = 600) :=
  ⟨by decide, by decide, by decide, by decide,
    box_full_size 500 400 1000 800 (by decide) (by decide) (by decide)
      (by decide)⟩

/-- C6: a load whose bytes cannot be decoded (null pixmap) raises the load
error and leaves the whole prior session state unchanged: pixmap, stored
image path and selected center point are exactly what they were before. -/
theorem load_failure_atomic (s : ImageLabelState) (path : String) :
    load_image s path none = Except.error ("Cannot load image: " ++ path) ∧
    applyOp s (Op.load path none) = s := by
  exact ⟨rfl, rfl⟩

/-- C7: export attempted with no image loaded fails with the no-image
condition before any record is built, and the session state is unchanged. -/
theorem export_without_image (s : ImageLabelState) (fileBytes : List Nat)
    (h : s.pixmap = none) :
    save_json s fileBytes = Except.error SaveError.noImage ∧
    applyOp s (Op.save fileBytes) = s := by
  refine ⟨?_, rfl⟩
  simp [save_json, h]

/-- Witness for C7 at the initial state. -/
theorem export_without_image_witness :
    initState.pixmap = none ∧
    (save_json initState [1, 2] = Except.error SaveError.noImage ∧
     applyOp initState (Op.save [1, 2]) = initState) :=
  ⟨rfl, export_without_image initState [1, 2] rfl⟩

/-- C8: when no center point is selected, `rectangle_points` returns none,
and an export attempted with an image loaded fails with the no-center
condition before any file is written. -/
theorem export_without_center (s : ImageLabelState) (fileBytes : List Nat)
    (h : s.centerPoint = none) :
    rectangle_points s = none ∧
    (s.pixmap.isSome →
      save_json s fileBytes = Except.error SaveError.noCenter) := by
  have hrect : rectangle_points s = none := by
    simp [rectangle_points, h]
  refine ⟨hrect, ?_⟩
  intro hps
  obtain ⟨p, hp⟩ := Option.isSome_iff_exists.mp hps
  simp [save_json, hp, hrect]

/-- Witness for C8: an 800 times 600 image loaded, no click made. -/
theorem export_without_center_witness :
    ImageLabelState.centerPoint
      { pixmap := some { width := 800, height := 600 },
        imagePath := some "/a/b/img.png", centerPoint := none } = none ∧
    (rectangle_points
       { pixmap := some { width := 800, height := 600 },
         imagePath := some "/a/b/img.png", centerPoint := none } = none ∧
     (ImageLabelState.pixmap
        { pixmap := some { width := 800, height := 600 },
          imagePath := some "/a/b/img.png", centerPoint := none } |>.isSome →
       save_json
         { pixmap := some { width := 800, height := 600 },
           imagePath := some "/a/b/img.png", centerPoint := none } [1, 2] =
         Except.error SaveError.noCenter)) :=
  ⟨rfl,
   export_without_center
     { pixmap := some { width := 800, height := 600 },
       imagePath := some "/a/b/img.png", centerPoint := none } [1, 2] rfl⟩

/-- C10: every successful load clears the previously selected center point,
so an export attempted immediately after any successful (re)load fails with
the no-center condition until a new click is made. -/
theorem load_resets_center (s s2 : ImageLabelState) (path : String)
    (pm : Option QPixmap) (h : load_image s path pm = Except.ok s2) :
    s2.centerPoint = none ∧
    ∀ fileBytes : List Nat,
      save_json s2 fileBytes = Except.error SaveError.noCenter := by
  cases pm with
  | none => simp [load_image] at h
  | some p =>
      simp only [load_image, Except.ok.injEq] at h
      subst h
      refine ⟨rfl, ?_⟩
      intro fileBytes
      simp [save_json, rectangle_points]

/-- Witness for C10: reloading over the `wState` session. -/
theorem load_resets_center_witness :
    load_image wState "other.png" (some { width := 640, height := 480 }) =
      Except.ok { pixmap := some { width := 640, height := 480 },
                  imagePath := some "other.png", centerPoint := none } ∧
    (ImageLabelState.centerPoint
       { pixmap := some { width := 640, height := 480 },
         imagePath := some "other.png", centerPoint := none } = none ∧
     ∀ fileBytes : List Nat,
       save_json
         { pixmap := some { width := 640, height := 480 },
           imagePath := some "other.png", centerPoint := none } fileBytes =
         Except.error SaveError.noCenter) :=
  ⟨rfl,
   load_resets_center wState
     { pixmap := some { width := 640, height := 480 },
       imagePath := some "other.png", centerPoint := none }
     "other.png" (some { width := 640, height := 480 }) rfl⟩

/-- C9: a left click delivered while no pixmap is loaded leaves the state
unchanged (the click is ignored, not stored), and in every session state
reachable from the initial state by operations whose decoded pixmaps have
positive dimensions, a selected center point implies a loaded pixmap of
positive width and height, so the box computation is never invoked with zero
image dimensions. -/
theorem click_requires_image (ops : List Op) (s : ImageLabelState)
    (pos : QPoint) (hops : ops.all goodOp = true) (hnone : s.pixmap = none) :
    mousePressEvent s MouseButton.left pos = s ∧
    ((runOps ops).centerPoint.isSome →
      ∃ p : QPixmap, (runOps ops).pixmap = some p ∧
        0 < p.width ∧ 0 < p.height) := by
  constructor
  · simp [mousePressEvent, hnone]
  · intro hc
    have hinv : stateInv (runOps ops) :=
      stateInv_foldl ops initState stateInv_init hops
    obtain ⟨p, hp⟩ := Option.isSome_iff_exists.mp (hinv.2 hc)
    exact ⟨p, hp, hinv.1 p hp⟩

/-- Witness for C9 on the concrete run `wOps` from the initial state. -/
theorem click_requires_image_witness :
    wOps.all goodOp = true ∧ initState.pixmap = none ∧
    (mousePressEvent initState MouseButton.left { x := 5, y := 5 } =
       initState ∧
     ((runOps wOps).centerPoint.isSome →
       ∃ p : QPixmap, (runOps wOps).pixmap = some p ∧
         0 < p.width ∧ 0 < p.height)) :=
  ⟨rfl, rfl,
    click_requires_image wOps initState { x := 5, y := 5 } rfl rfl⟩

/-- C3: whenever an export succeeds, the serialized document has version
"5.8.3" and exactly one shape with label the fixed constant "d", group_id
null, empty description, shape_type "rectangle", empty flags and null mask;
imagePath is the file name of the stored image path with no directory
components; imageData is the base64 encoding of the original file bytes; and
imageWidth, imageHeight equal the loaded pixmap's pixel dimensions. -/
theorem export_record_fields (s : ImageLabelState) (fileBytes : List Nat)
    (rec : LabelFile) (h : save_json s fileBytes = Except.ok rec) :
    rec.version = "5.8.3" ∧
    rec.flags = [] ∧
    (∃ sh : Shape, rec.shapes = [sh] ∧ sh.label = "d" ∧ sh.group_id = none ∧
      sh.description = "" ∧ sh.shape_type = "rectangle" ∧ sh.flags = [] ∧
      sh.mask = none) ∧
    rec.imagePath = pathName (s.imagePath.getD "") ∧
    rec.imageData = b64encode fileBytes ∧
    (∃ p : QPixmap, s.pixmap = some p ∧ rec.imageWidth = p.width ∧
      rec.imageHeight = p.height) := by
  obtain ⟨pm, ipath, cp⟩ := s
  cases pm with
  | none => simp [save_json] at h
  | some p =>
      cases hr : rectangle_points ⟨some p, ipath, cp⟩ with
      | none => simp [save_json, hr] at h
      | some pts =>
          simp only [save_json, hr, pixmap_size, Except.ok.injEq] at h
          subst h
          exact ⟨rfl, rfl, ⟨_, rfl, rfl, rfl, rfl, rfl, rfl, rfl⟩, rfl, rfl,
            p, rfl, rfl, rfl⟩

/-- Witness for C3 at the concrete session `wState` with bytes `wBytes`. -/
theorem export_record_fields_witness :
    save_json wState wBytes = Except.ok wRec ∧
    (wRec.version = "5.8.3" ∧
     wRec.flags = [] ∧
     (∃ sh : Shape, wRec.shapes = [sh] ∧ sh.label = "d" ∧
       sh.group_id = none ∧ sh.description = "" ∧
       sh.shape_type = "rectangle" ∧ sh.flags = [] ∧ sh.mask = none) ∧
     wRec.imagePath = pathName (wState.imagePath.getD "") ∧
     wRec.imageData = b64encode wBytes ∧
     (∃ p : QPixmap, wState.pixmap = some p ∧ wRec.imageWidth = p.width ∧
       wRec.imageHeight = p.height)) :=
  ⟨rfl, export_record_fields wState wBytes wRec rfl⟩

end LabelMed
